import Mathlib

/-!
# topo-blend: Rodrigues rotation helper, structure links, grid stitching and blending

A shallow embedding of

* the helper `ROTATE_VEC` of `TopoBlenderLib/Synthesizer.h`,
* `Link::setCoord`, `Link::getCoord`, `Link::otherNode`, `Link::hasNode` of
  `topo-blend/topo/StructureLink.cpp`,
* the stitching operations and `blend` declared in `TopoBlenderLib/Synthesizer.h`.
  Their bodies live in `Synthesizer.cpp`: the signatures are taken from the header, the
  behaviour from the specification of the grid stitcher (§4.3) and of the blend
  orchestrator (§4.4).

Scalars (`double`) are modelled by a commutative ring `R` (the reals in the theorems on
`ROTATE_VEC`, the rationals in the concrete evaluations); link coordinates are stored and
loaded but never computed with, and are modelled over the rationals.
-/

namespace TopoBlend

/-! ## Vectors -/

/-- Three-component vector (`Vec3d`, `Vector3`) over the scalar type `R`. -/
structure Vec3 (R : Type) where
  x : R
  y : R
  z : R
deriving DecidableEq

/-- Componentwise sum `a + b` of two vectors. -/
instance instAddVec3 {R : Type} [CommRing R] : Add (Vec3 R) :=
  ⟨fun a b => ⟨a.x + b.x, a.y + b.y, a.z + b.z⟩⟩

/-- Product `v * s` of a vector with a scalar. -/
instance instHMulVec3 {R : Type} [CommRing R] : HMul (Vec3 R) R (Vec3 R) :=
  ⟨fun a s => ⟨a.x * s, a.y * s, a.z * s⟩⟩

/-- Cross product `cross(a, b)`. -/
def cross {R : Type} [CommRing R] (a b : Vec3 R) : Vec3 R :=
  ⟨a.y * b.z - a.z * b.y, a.z * b.x - a.x * b.z, a.x * b.y - a.y * b.x⟩

/-- Scalar product `dot(a, b)`. -/
def dot {R : Type} [CommRing R] (a b : Vec3 R) : R :=
  a.x * b.x + a.y * b.y + a.z * b.z

/-- The value that `ROTATE_VEC(u, v, theta, axis)` assigns to `u`
(`Synthesizer.h`, line 45):
`u = v * cos(theta) + cross(axis, v) * sin(theta) + axis * dot(axis, v) * (1 - cos(theta))`.
The library functions `cos` and `sin` are parameters; the theorems instantiate them with
`Real.cos` and `Real.sin`. -/
def ROTATE_VEC {R : Type} [CommRing R] (cos sin : R → R)
    (v : Vec3 R) (theta : R) (axis : Vec3 R) : Vec3 R :=
  v * cos theta + cross axis v * sin theta + axis * dot axis v * (1 - cos theta)

/-! ## Structure links (`StructureLink.cpp`) -/

namespace Structure

/-- Four-component coordinate `Vec4d`. -/
structure Vec4d where
  x : ℚ
  y : ℚ
  z : ℚ
  w : ℚ
deriving DecidableEq

/-- The largest finite `double`, `DBL_MAX = (2 - 2^(-52)) * 2^1023`. -/
def DBL_MAX : ℚ := 2 ^ 1024 - 2 ^ 971

/-- The constructor `Vec4d(s)`: every component is set to `s`. -/
def Vec4d.splat (s : ℚ) : Vec4d := ⟨s, s, s, s⟩

/-- The part of `Structure::Node` (`StructureNode.h`) the modelled code reads: the field
`id` and the value returned by the virtual `type()`. -/
structure Node where
  id : String
  type : String
deriving DecidableEq

/-- A link: its two endpoint nodes `n1`, `n2` and the stored coordinates
`coord[0]` (first component) and `coord[1]` (second component). -/
structure Link where
  n1 : Node
  n2 : Node
  coord : Vec4d × Vec4d
deriving DecidableEq

/-- The method `Link::setCoord`:
`if(n1->id == nodeID) coord[0] = newCoord; if(n2->id == nodeID) coord[1] = newCoord;` -/
def Link.setCoord (l : Link) (nodeID : String) (newCoord : Vec4d) : Link :=
  let l1 : Link := if l.n1.id = nodeID then { l with coord := (newCoord, l.coord.2) } else l
  if l1.n2.id = nodeID then { l1 with coord := (l1.coord.1, newCoord) } else l1

/-- The method `Link::getCoord`:
`if(n1->id == nodeID) return coord[0]; if(n2->id == nodeID) return coord[1];
return Vec4d(DBL_MAX);`. It has no assignment, so the link is not part of the result. -/
def Link.getCoord (l : Link) (nodeID : String) : Vec4d :=
  if l.n1.id = nodeID then l.coord.1
  else if l.n2.id = nodeID then l.coord.2
  else Vec4d.splat DBL_MAX

/-- The method `Link::otherNode`: `if(n1->id == nodeID) return n2; else return n1;` -/
def Link.otherNode (l : Link) (nodeID : String) : Node :=
  if l.n1.id = nodeID then l.n2 else l.n1

/-- The method `Link::hasNode`: `return n1->id == nodeID || n2->id == nodeID;` -/
def Link.hasNode (l : Link) (nodeID : String) : Bool :=
  decide (l.n1.id = nodeID) || decide (l.n2.id = nodeID)

end Structure

/-! ## Grid stitching and blending (`Synthesizer.h`) -/

namespace Synthesizer

open Structure

/-- A row of positions, `Array1D_Vector3`. -/
abbrev Array1D_Vector3 (R : Type) := List (Vec3 R)

/-- A row-major table of positions, `Array2D_Vector3`. -/
abbrev Array2D_Vector3 (R : Type) := List (List (Vec3 R))

/-- A vertex handle: the index of the vertex in the mesh. -/
abbrev Vertex := Nat

/-- A triangular face: three vertex indices. -/
structure Face where
  v0 : Vertex
  v1 : Vertex
  v2 : Vertex
deriving DecidableEq

/-- The mesh under construction: vertex positions and face index triples. -/
structure SurfaceMeshModel (R : Type) where
  points : List (Vec3 R)
  faces : List Face

/-- What a call of a stitching operation leaves behind: the mesh reached through the
pointer `mesh`, the vector bound to the reference `vertices_idx`, and the value the call
returns (`none` for a function declared `void`). The argument `idxBase` is passed by
value, so the caller's variable is not part of the result. -/
structure StitchResult (R : Type) where
  mesh : SurfaceMeshModel R
  vertices_idx : List Vertex
  ret : Option Nat

/-- Appends one vertex to the mesh and returns its handle. -/
def add_vertex {R : Type} (mesh : SurfaceMeshModel R) (p : Vec3 R) :
    SurfaceMeshModel R × Vertex :=
  ({ mesh with points := mesh.points ++ [p] }, mesh.points.length)

/-- Modelled from the spec: the vertex emission of `Synthesizer.cpp` (absent), §4.3
"emits new vertices (one per grid cell, added in row-major order)". Each new handle is
recorded in `vertices_idx`. -/
def emitVertices {R : Type} (grid : Array2D_Vector3 R) (mesh : SurfaceMeshModel R)
    (vertices_idx : List Vertex) : SurfaceMeshModel R × List Vertex :=
  grid.foldl
    (fun st row =>
      row.foldl (fun st p => ((add_vertex st.1 p).1, st.2 ++ [(add_vertex st.1 p).2])) st)
    (mesh, vertices_idx)

/-- Modelled from the spec: the quad face of `Synthesizer.cpp` (absent), §4.3 "a quad
(split into two triangles)". The quad `a b c d` is cut along the diagonal `a c`. -/
def quadFaces (a b c d : Vertex) : List Face := [⟨a, b, c⟩, ⟨a, c, d⟩]

/-- A face rule gives the faces of a `rows × cols` grid whose first vertex has index
`idxBase`. -/
abbrev FaceRule := Nat → Nat → Nat → List Face

/-- Modelled from the spec: the face loop of `Synthesizer::addCylinderFaces`
(`Synthesizer.cpp`, absent), §4.3 "connect Grid[i][j], Grid[i][j+1 mod A],
Grid[i+1][j+1 mod A], Grid[i+1][j] into a quad (split into two triangles) for every i in
[0,T-1), j in [0,A)". -/
def cylinderFaces : FaceRule := fun T A idxBase =>
  (List.range (T - 1)).flatMap fun i =>
    (List.range A).flatMap fun j =>
      quadFaces (idxBase + i * A + j) (idxBase + i * A + (j + 1) % A)
        (idxBase + (i + 1) * A + (j + 1) % A) (idxBase + (i + 1) * A + j)

/-- Modelled from the spec: the face loop of `Synthesizer::addPlaneFaces`
(`Synthesizer.cpp`, absent), §4.3 "straightforward row-major quad grid, no wrap-around in
either axis". -/
def planeFaces : FaceRule := fun U V idxBase =>
  (List.range (U - 1)).flatMap fun i =>
    (List.range (V - 1)).flatMap fun j =>
      quadFaces (idxBase + i * V + j) (idxBase + i * V + (j + 1))
        (idxBase + (i + 1) * V + (j + 1)) (idxBase + (i + 1) * V + j)

/-- Modelled from the spec: the contract shared by the stitching operations of
`Synthesizer.cpp` (absent), §4.3 "emits new vertices (one per grid cell, added in
row-major order) and faces connecting them". The number of columns is the length of the
first row. The operations are declared `static void` in `Synthesizer.h`, so no value is
returned. -/
def stitch {R : Type} (rule : FaceRule) (grid : Array2D_Vector3 R)
    (mesh : SurfaceMeshModel R) (vertices_idx : List Vertex) (idxBase : Nat) :
    StitchResult R :=
  let st := emitVertices grid mesh vertices_idx
  { mesh := { st.1 with faces := st.1.faces ++ rule grid.length (grid.headD []).length idxBase }
    vertices_idx := st.2
    ret := none }

/-- Modelled from the spec: the body of `Synthesizer::addCylinderFaces`
(`Synthesizer.cpp`, absent); declared in `Synthesizer.h` as
`static void addCylinderFaces(Array2D_Vector3 crossSecssions, SurfaceMeshModel *mesh,
std::vector<Vertex> &vertices_idx, int idxBase)`. -/
def addCylinderFaces {R : Type} (crossSecssions : Array2D_Vector3 R)
    (mesh : SurfaceMeshModel R) (vertices_idx : List Vertex) (idxBase : Nat) :
    StitchResult R :=
  stitch cylinderFaces crossSecssions mesh vertices_idx idxBase

/-- Modelled from the spec: the body of `Synthesizer::addEndFaces` (`Synthesizer.cpp`,
absent); declared in `Synthesizer.h` as `static void addEndFaces(Array2D_Vector3
sphereResamplings, SurfaceMeshModel *mesh, std::vector<SurfaceMeshModel::Vertex>
&vertices_idx, int idxBase)`. The specification does not fix the fan of faces of a cap
("fan-connect each ring to the next, treating the innermost ring specially"), which is
the parameter `capFaces`. -/
def addEndFaces {R : Type} (capFaces : FaceRule) (sphereResamplings : Array2D_Vector3 R)
    (mesh : SurfaceMeshModel R) (vertices_idx : List Vertex) (idxBase : Nat) :
    StitchResult R :=
  stitch capFaces sphereResamplings mesh vertices_idx idxBase

/-- Modelled from the spec: the body of `Synthesizer::addCornerFaces`
(`Synthesizer.cpp`, absent); declared in `Synthesizer.h` as `static void
addCornerFaces(Array2D_Vector3 sphereResamplings, SurfaceMeshModel *mesh,
std::vector<Vertex> &vertices_idx, int idxBase)`. The fan of faces of a corner is the
parameter `cornerFaces`, as for `addEndFaces`. -/
def addCornerFaces {R : Type} (cornerFaces : FaceRule)
    (sphereResamplings : Array2D_Vector3 R)
    (mesh : SurfaceMeshModel R) (vertices_idx : List Vertex) (idxBase : Nat) :
    StitchResult R :=
  stitch cornerFaces sphereResamplings mesh vertices_idx idxBase

/-- The number of cells of a grid. -/
def cellCount {R : Type} (grid : Array2D_Vector3 R) : Nat :=
  (grid.map List.length).sum

/-- Modelled from the spec: the body of `Synthesizer::addPlaneFaces` (`Synthesizer.cpp`,
absent); declared in `Synthesizer.h` as `static void
addPlaneFaces(std::vector<Array2D_Vector3> resampledPlane, SurfaceMeshModel *mesh,
std::vector<Vertex> &vertices_idx, int idxBase)`. Every sub-grid is stitched in turn
(§4.3 "one call per independent sub-grid"), the base index advancing by the number of
cells of the sub-grid just stitched. -/
def addPlaneFaces {R : Type} (resampledPlane : List (Array2D_Vector3 R))
    (mesh : SurfaceMeshModel R) (vertices_idx : List Vertex) (idxBase : Nat) :
    StitchResult R :=
  let st := resampledPlane.foldl
    (fun (st : StitchResult R × Nat) grid =>
      (stitch planeFaces grid st.1.mesh st.1.vertices_idx st.2, st.2 + cellCount grid))
    (({ mesh := mesh, vertices_idx := vertices_idx, ret := none } : StitchResult R), idxBase)
  st.1

/-- The cell `grid[i][j]`, if it exists. -/
def cell {R : Type} (grid : Array2D_Vector3 R) (i j : Nat) : Option (Vec3 R) :=
  (grid[i]?).bind fun row => row[j]?

/-- A grid of `T` rows that all have length `A` (§3 "every row has identical length"). -/
def IsGrid {R : Type} (T A : Nat) (grid : Array2D_Vector3 R) : Prop :=
  grid.length = T ∧ ∀ row ∈ grid, row.length = A

/-- The failures of §7 that reach the caller of `blend`. -/
inductive BlendError where
  | IncompatiblePrimitiveKinds
  | DegenerateGrid
  | IndexUnavailable
deriving DecidableEq

/-- Modelled from the spec: the interpolation step of `Synthesizer::blend`
(`Synthesizer.cpp`, absent), §4.4 "linearly interpolates corresponding grid-cell positions
by t": cell by cell, `a[i][j] * (1 - t) + b[i][j] * t`. -/
def interpolate {R : Type} [CommRing R] (a b : Array2D_Vector3 R) (t : R) :
    Array2D_Vector3 R :=
  List.zipWith (fun ra rb => List.zipWith (fun p q => p * (1 - t) + q * t) ra rb) a b

/-- Modelled from the spec: the body of `Synthesizer::blend` (`Synthesizer.cpp`, absent);
declared in `Synthesizer.h` as `static SurfaceMeshModel * blend(Structure::Node * n1,
Structure::Node * n2, double t)`. §4.4: it fails if the two primitives are of different
kinds, resamples both nodes, interpolates the two grids by `t` and stitches the
interpolated grid into an empty mesh as in §4.3. The resampling (ray casting against the
spatial index, which may fail, §7) is the parameter `resample`, and the face rule of a
kind is the parameter `rule`. -/
def blend {R : Type} [CommRing R] (resample : Node → Except BlendError (Array2D_Vector3 R))
    (rule : String → FaceRule) (n1 n2 : Node) (t : R) :
    Except BlendError (SurfaceMeshModel R) :=
  if n1.type ≠ n2.type then Except.error BlendError.IncompatiblePrimitiveKinds
  else
    match resample n1, resample n2 with
    | Except.ok a, Except.ok b =>
      Except.ok (stitch (rule n1.type) (interpolate a b t) ⟨[], []⟩ [] 0).mesh
    | Except.error e, _ => Except.error e
    | Except.ok _, Except.error e => Except.error e

/-- A `2 × 3` grid of rational positions, used in the concrete evaluations. -/
def sampleGridA : Array2D_Vector3 ℚ :=
  [[⟨0, 0, 0⟩, ⟨1, 0, 0⟩, ⟨0, 1, 0⟩], [⟨0, 0, 1⟩, ⟨1, 0, 1⟩, ⟨0, 1, 1⟩]]

/-- A second `2 × 3` grid of rational positions, used in the concrete evaluations. -/
def sampleGridB : Array2D_Vector3 ℚ :=
  [[⟨0, 0, 0⟩, ⟨2, 0, 0⟩, ⟨0, 2, 0⟩], [⟨0, 0, 4⟩, ⟨2, 0, 4⟩, ⟨0, 2, 4⟩]]

/-- A resampling that succeeds on every node: `sampleGridA` for the node `a`,
`sampleGridB` for every other node. -/
def sampleResample (n : Node) : Except BlendError (Array2D_Vector3 ℚ) :=
  if n.id = "a" then Except.ok sampleGridA else Except.ok sampleGridB

end Synthesizer

end TopoBlend

/-! # Theorems -/

namespace TopoBlend

/-! ## Rodrigues rotation -/

theorem Vec3.eq_of_components {R : Type} {a b : Vec3 R} (hx : a.x = b.x) (hy : a.y = b.y)
    (hz : a.z = b.z) : a = b := by
  cases a; cases b; simp_all

theorem ROTATE_VEC_x {R : Type} [CommRing R] (cos sin : R → R) (v : Vec3 R) (theta : R)
    (axis : Vec3 R) :
    (ROTATE_VEC cos sin v theta axis).x =
      v.x * cos theta + (axis.y * v.z - axis.z * v.y) * sin theta +
        axis.x * (axis.x * v.x + axis.y * v.y + axis.z * v.z) * (1 - cos theta) := rfl

theorem ROTATE_VEC_y {R : Type} [CommRing R] (cos sin : R → R) (v : Vec3 R) (theta : R)
    (axis : Vec3 R) :
    (ROTATE_VEC cos sin v theta axis).y =
      v.y * cos theta + (axis.z * v.x - axis.x * v.z) * sin theta +
        axis.y * (axis.x * v.x + axis.y * v.y + axis.z * v.z) * (1 - cos theta) := rfl

theorem ROTATE_VEC_z {R : Type} [CommRing R] (cos sin : R → R) (v : Vec3 R) (theta : R)
    (axis : Vec3 R) :
    (ROTATE_VEC cos sin v theta axis).z =
      v.z * cos theta + (axis.x * v.y - axis.y * v.x) * sin theta +
        axis.z * (axis.x * v.x + axis.y * v.y + axis.z * v.z) * (1 - cos theta) := rfl

/-- The squared length is preserved as soon as `cos² + sin² = 1` and the axis has squared
length one. -/
theorem ROTATE_VEC_dot_self (v axis : Vec3 ℝ) (theta : ℝ) (h : dot axis axis = 1) :
    dot (ROTATE_VEC Real.cos Real.sin v theta axis) (ROTATE_VEC Real.cos Real.sin v theta axis)
      = dot v v := by
  have hcs := Real.cos_sq_add_sin_sq theta
  simp only [dot, ROTATE_VEC_x, ROTATE_VEC_y, ROTATE_VEC_z] at h ⊢
  linear_combination
    ((v.x * v.x + v.y * v.y + v.z * v.z) -
        (axis.x * v.x + axis.y * v.y + axis.z * v.z) ^ 2) * hcs +
      (Real.sin theta ^ 2 * (v.x * v.x + v.y * v.y + v.z * v.z) +
        (axis.x * v.x + axis.y * v.y + axis.z * v.z) ^ 2 * (1 - Real.cos theta) ^ 2) * h

/-- Two rotations about the same unit axis compose by adding the angles. -/
theorem ROTATE_VEC_add (v axis : Vec3 ℝ) (a b : ℝ) (h : dot axis axis = 1) :
    ROTATE_VEC Real.cos Real.sin (ROTATE_VEC Real.cos Real.sin v a axis) b axis =
      ROTATE_VEC Real.cos Real.sin v (a + b) axis := by
  simp only [dot] at h
  apply Vec3.eq_of_components <;>
    simp only [ROTATE_VEC_x, ROTATE_VEC_y, ROTATE_VEC_z, Real.cos_add, Real.sin_add]
  · linear_combination
      (-(Real.sin a * Real.sin b * v.x) +
        axis.x * (axis.x * v.x + axis.y * v.y + axis.z * v.z) *
          (1 - Real.cos a) * (1 - Real.cos b)) * h
  · linear_combination
      (-(Real.sin a * Real.sin b * v.y) +
        axis.y * (axis.x * v.x + axis.y * v.y + axis.z * v.z) *
          (1 - Real.cos a) * (1 - Real.cos b)) * h
  · linear_combination
      (-(Real.sin a * Real.sin b * v.z) +
        axis.z * (axis.x * v.x + axis.y * v.y + axis.z * v.z) *
          (1 - Real.cos a) * (1 - Real.cos b)) * h

/-- Rotation by the angle `0` is the identity, for every axis. -/
theorem ROTATE_VEC_zero (v axis : Vec3 ℝ) : ROTATE_VEC Real.cos Real.sin v 0 axis = v := by
  apply Vec3.eq_of_components <;>
    simp [ROTATE_VEC_x, ROTATE_VEC_y, ROTATE_VEC_z]

/-- Rotation by a full turn is the identity, for every axis. -/
theorem ROTATE_VEC_two_pi (v axis : Vec3 ℝ) :
    ROTATE_VEC Real.cos Real.sin v (2 * Real.pi) axis = v := by
  apply Vec3.eq_of_components <;>
    simp [ROTATE_VEC_x, ROTATE_VEC_y, ROTATE_VEC_z]

/-- The rotation by `step` applied `k` times is the rotation by `k * step`. -/
theorem ROTATE_VEC_iterate (v axis : Vec3 ℝ) (step : ℝ) (h : dot axis axis = 1) (k : ℕ) :
    (fun d => ROTATE_VEC Real.cos Real.sin d step axis)^[k] v =
      ROTATE_VEC Real.cos Real.sin v (k * step) axis := by
  induction k with
  | zero => simp [ROTATE_VEC_zero]
  | succ k ih =>
    rw [Function.iterate_succ_apply', ih, ROTATE_VEC_add v axis _ _ h]
    congr 1
    push_cast
    ring

/-- Claim C5: over the reals, for a unit-length axis, the vector assigned by
`ROTATE_VEC(u, v, theta, axis)` has the same length as `v`; the assigned vector is the
closed expression in the components of `v`, `axis` and in `theta` given by Rodrigues'
formula, so it depends on nothing else. -/
theorem ROTATE_VEC_preserves_length (v axis : Vec3 ℝ) (theta : ℝ)
    (hunit : Real.sqrt (dot axis axis) = 1) :
    Real.sqrt (dot (ROTATE_VEC Real.cos Real.sin v theta axis)
        (ROTATE_VEC Real.cos Real.sin v theta axis)) = Real.sqrt (dot v v) ∧
    ROTATE_VEC Real.cos Real.sin v theta axis =
      ⟨v.x * Real.cos theta + (axis.y * v.z - axis.z * v.y) * Real.sin theta +
          axis.x * (axis.x * v.x + axis.y * v.y + axis.z * v.z) * (1 - Real.cos theta),
        v.y * Real.cos theta + (axis.z * v.x - axis.x * v.z) * Real.sin theta +
          axis.y * (axis.x * v.x + axis.y * v.y + axis.z * v.z) * (1 - Real.cos theta),
        v.z * Real.cos theta + (axis.x * v.y - axis.y * v.x) * Real.sin theta +
          axis.z * (axis.x * v.x + axis.y * v.y + axis.z * v.z) * (1 - Real.cos theta)⟩ := by
  refine ⟨?_, rfl⟩
  rw [ROTATE_VEC_dot_self v axis theta (Real.sqrt_eq_one.mp hunit)]

/-- Witness for C5: the vector `(3, 4, 12)` turned by the angle `1` about the `z` axis. -/
theorem ROTATE_VEC_preserves_length_witness :
    Real.sqrt (dot (⟨0, 0, 1⟩ : Vec3 ℝ) ⟨0, 0, 1⟩) = 1 ∧
    Real.sqrt (dot (ROTATE_VEC Real.cos Real.sin (⟨3, 4, 12⟩ : Vec3 ℝ) 1 ⟨0, 0, 1⟩)
        (ROTATE_VEC Real.cos Real.sin (⟨3, 4, 12⟩ : Vec3 ℝ) 1 ⟨0, 0, 1⟩)) =
      Real.sqrt (dot (⟨3, 4, 12⟩ : Vec3 ℝ) ⟨3, 4, 12⟩) :=
  ⟨by simp [dot],
   (ROTATE_VEC_preserves_length ⟨3, 4, 12⟩ ⟨0, 0, 1⟩ 1 (by simp [dot])).1⟩

/-- Claim C6: over the reals, for a unit-length axis, `ROTATE_VEC` with angle `a` followed
by `ROTATE_VEC` with angle `b` about the same axis is `ROTATE_VEC` with angle `a + b`;
the angle `0` returns `v`; and for a resolution `n ≥ 1`, `n` successive rotations by the
step `2π / n` return the starting direction. -/
theorem ROTATE_VEC_compose (v axis : Vec3 ℝ) (a b : ℝ) (n : ℕ)
    (hunit : Real.sqrt (dot axis axis) = 1) (hn : 1 ≤ n) :
    ROTATE_VEC Real.cos Real.sin (ROTATE_VEC Real.cos Real.sin v a axis) b axis =
      ROTATE_VEC Real.cos Real.sin v (a + b) axis ∧
    ROTATE_VEC Real.cos Real.sin v 0 axis = v ∧
    (fun d => ROTATE_VEC Real.cos Real.sin d (2 * Real.pi / n) axis)^[n] v = v := by
  have h : dot axis axis = 1 := Real.sqrt_eq_one.mp hunit
  refine ⟨ROTATE_VEC_add v axis a b h, ROTATE_VEC_zero v axis, ?_⟩
  rw [ROTATE_VEC_iterate v axis _ h n]
  have hn0 : (n : ℝ) ≠ 0 := by
    have : 0 < n := hn
    exact_mod_cast this.ne'
  have e : (n : ℝ) * (2 * Real.pi / n) = 2 * Real.pi := by
    field_simp
  rw [e]
  exact ROTATE_VEC_two_pi v axis

/-- Witness for C6: the `x` direction swept about the `z` axis at resolution `4`. -/
theorem ROTATE_VEC_compose_witness :
    Real.sqrt (dot (⟨0, 0, 1⟩ : Vec3 ℝ) ⟨0, 0, 1⟩) = 1 ∧ 1 ≤ 4 ∧
    (fun d => ROTATE_VEC Real.cos Real.sin d (2 * Real.pi / (4 : ℕ)) ⟨0, 0, 1⟩)^[4]
      (⟨1, 0, 0⟩ : Vec3 ℝ) = ⟨1, 0, 0⟩ :=
  ⟨by simp [dot], by decide,
   (ROTATE_VEC_compose ⟨1, 0, 0⟩ ⟨0, 0, 1⟩ 0 0 4 (by simp [dot]) (by decide)).2.2⟩

/-- Claim C7: over the reals, for every axis, a vector `v` perpendicular to the axis is
sent by `ROTATE_VEC` to a vector perpendicular to the axis; and for a unit-length axis
and an arbitrary `v` the component along the axis is preserved. -/
theorem ROTATE_VEC_axis_component (v axis : Vec3 ℝ) (theta : ℝ) :
    (dot axis v = 0 → dot axis (ROTATE_VEC Real.cos Real.sin v theta axis) = 0) ∧
    (Real.sqrt (dot axis axis) = 1 →
      dot axis (ROTATE_VEC Real.cos Real.sin v theta axis) = dot axis v) := by
  refine ⟨fun hperp => ?_, fun hunit => ?_⟩
  · simp only [dot, ROTATE_VEC_x, ROTATE_VEC_y, ROTATE_VEC_z] at hperp ⊢
    linear_combination
      (Real.cos theta +
        (axis.x * axis.x + axis.y * axis.y + axis.z * axis.z) * (1 - Real.cos theta)) * hperp
  · have h : dot axis axis = 1 := Real.sqrt_eq_one.mp hunit
    simp only [dot, ROTATE_VEC_x, ROTATE_VEC_y, ROTATE_VEC_z] at h ⊢
    linear_combination
      ((axis.x * v.x + axis.y * v.y + axis.z * v.z) * (1 - Real.cos theta)) * h

/-- Witness for C7: an axis of length `2` with a perpendicular vector, and the unit `z`
axis with an oblique vector. -/
theorem ROTATE_VEC_axis_component_witness :
    dot (⟨0, 0, 2⟩ : Vec3 ℝ) (ROTATE_VEC Real.cos Real.sin ⟨1, 5, 0⟩ 1 ⟨0, 0, 2⟩) = 0 ∧
    dot (⟨0, 0, 1⟩ : Vec3 ℝ) (ROTATE_VEC Real.cos Real.sin ⟨1, 5, 7⟩ 1 ⟨0, 0, 1⟩) =
      dot (⟨0, 0, 1⟩ : Vec3 ℝ) ⟨1, 5, 7⟩ :=
  ⟨(ROTATE_VEC_axis_component ⟨1, 5, 0⟩ ⟨0, 0, 2⟩ 1).1 (by simp [dot]),
   (ROTATE_VEC_axis_component ⟨1, 5, 7⟩ ⟨0, 0, 1⟩ 1).2 (by simp [dot])⟩

namespace Structure

/-- Claim C8: after `setCoord(nodeID, c)` with `nodeID` the id of one of the two
endpoints, `getCoord(nodeID)` returns `c`; with `nodeID` the id of neither endpoint,
`setCoord(nodeID, c)` leaves both stored coordinates (and the whole link) unchanged. -/
theorem setCoord_getCoord (l : Link) (nodeID : String) (c : Vec4d) :
    ((l.n1.id = nodeID ∨ l.n2.id = nodeID) → (l.setCoord nodeID c).getCoord nodeID = c) ∧
    ((l.n1.id ≠ nodeID ∧ l.n2.id ≠ nodeID) →
      (l.setCoord nodeID c).coord = l.coord ∧ l.setCoord nodeID c = l) := by
  refine ⟨fun h => ?_, fun h => ?_⟩
  · by_cases h1 : l.n1.id = nodeID <;> by_cases h2 : l.n2.id = nodeID <;>
      simp_all [Link.setCoord, Link.getCoord]
  · simp [Link.setCoord, h.1, h.2]

/-- Witness for C8: the link `a — b`, written at `b` and then at the foreign id `z`. -/
theorem setCoord_getCoord_witness :
    ((⟨⟨"a", "CURVE"⟩, ⟨"b", "SHEET"⟩, (⟨0, 0, 0, 0⟩, ⟨1, 1, 1, 1⟩)⟩ : Link).setCoord "b"
        ⟨2, 3, 4, 5⟩).getCoord "b" = ⟨2, 3, 4, 5⟩ ∧
    (⟨⟨"a", "CURVE"⟩, ⟨"b", "SHEET"⟩, (⟨0, 0, 0, 0⟩, ⟨1, 1, 1, 1⟩)⟩ : Link).setCoord "z"
        ⟨2, 3, 4, 5⟩ = ⟨⟨"a", "CURVE"⟩, ⟨"b", "SHEET"⟩, (⟨0, 0, 0, 0⟩, ⟨1, 1, 1, 1⟩)⟩ :=
  ⟨(setCoord_getCoord ⟨⟨"a", "CURVE"⟩, ⟨"b", "SHEET"⟩, (⟨0, 0, 0, 0⟩, ⟨1, 1, 1, 1⟩)⟩ "b"
      ⟨2, 3, 4, 5⟩).1 (Or.inr rfl),
   ((setCoord_getCoord ⟨⟨"a", "CURVE"⟩, ⟨"b", "SHEET"⟩, (⟨0, 0, 0, 0⟩, ⟨1, 1, 1, 1⟩)⟩ "z"
      ⟨2, 3, 4, 5⟩).2 ⟨by decide, by decide⟩).2⟩

/-- Claim C9: `getCoord(nodeID)` is defined for every link and every id; when
`hasNode(nodeID)` holds it is the stored coordinate of the matching endpoint, the first
one when both ids match; when `hasNode(nodeID)` fails it is the sentinel
`Vec4d(DBL_MAX)`; and when no stored coordinate is the sentinel, the result is the
sentinel exactly when `hasNode(nodeID)` fails. -/
theorem getCoord_hasNode (l : Link) (nodeID : String) :
    (l.hasNode nodeID = true →
      l.getCoord nodeID = if l.n1.id = nodeID then l.coord.1 else l.coord.2) ∧
    (l.hasNode nodeID = false → l.getCoord nodeID = Vec4d.splat DBL_MAX) ∧
    ((l.coord.1 ≠ Vec4d.splat DBL_MAX ∧ l.coord.2 ≠ Vec4d.splat DBL_MAX) →
      (l.getCoord nodeID = Vec4d.splat DBL_MAX ↔ l.hasNode nodeID = false)) := by
  by_cases h1 : l.n1.id = nodeID <;> by_cases h2 : l.n2.id = nodeID <;>
    simp_all [Link.getCoord, Link.hasNode]

/-- Witness for C9: the link `a — b` queried at `b`, at the foreign id `z`, and with no
stored coordinate equal to the sentinel. -/
theorem getCoord_hasNode_witness :
    (⟨⟨"a", "CURVE"⟩, ⟨"b", "SHEET"⟩, (⟨0, 0, 0, 0⟩, ⟨1, 1, 1, 1⟩)⟩ : Link).getCoord "b" =
      ⟨1, 1, 1, 1⟩ ∧
    (⟨⟨"a", "CURVE"⟩, ⟨"b", "SHEET"⟩, (⟨0, 0, 0, 0⟩, ⟨1, 1, 1, 1⟩)⟩ : Link).getCoord "z" =
      Vec4d.splat DBL_MAX ∧
    ((⟨⟨"a", "CURVE"⟩, ⟨"b", "SHEET"⟩, (⟨0, 0, 0, 0⟩, ⟨1, 1, 1, 1⟩)⟩ : Link).getCoord "b" =
      Vec4d.splat DBL_MAX ↔
      (⟨⟨"a", "CURVE"⟩, ⟨"b", "SHEET"⟩, (⟨0, 0, 0, 0⟩, ⟨1, 1, 1, 1⟩)⟩ : Link).hasNode "b" =
        false) :=
  ⟨(getCoord_hasNode ⟨⟨"a", "CURVE"⟩, ⟨"b", "SHEET"⟩, (⟨0, 0, 0, 0⟩, ⟨1, 1, 1, 1⟩)⟩ "b").1
      (by decide),
   (getCoord_hasNode ⟨⟨"a", "CURVE"⟩, ⟨"b", "SHEET"⟩, (⟨0, 0, 0, 0⟩, ⟨1, 1, 1, 1⟩)⟩ "z").2.1
      (by decide),
   (getCoord_hasNode ⟨⟨"a", "CURVE"⟩, ⟨"b", "SHEET"⟩, (⟨0, 0, 0, 0⟩, ⟨1, 1, 1, 1⟩)⟩ "b").2.2
      ⟨by norm_num [Vec4d.splat, DBL_MAX], by norm_num [Vec4d.splat, DBL_MAX]⟩⟩

/-- Claim C10: on a link whose endpoints have different ids, for `nodeID` with
`hasNode(nodeID)`, `otherNode(nodeID)` is the endpoint whose id is not `nodeID` (`n2` at
the id of `n1`, `n1` at the id of `n2`), and `otherNode(otherNode(nodeID)->id)` is the
endpoint whose id is `nodeID`; for a `nodeID` that is the id of neither endpoint (on any
link) `otherNode` returns `n1`. -/
theorem otherNode_swaps (l : Link) (nodeID : String) :
    (l.n1.id ≠ l.n2.id → l.hasNode nodeID = true →
      (l.otherNode nodeID).id ≠ nodeID ∧
      (nodeID = l.n1.id → l.otherNode nodeID = l.n2) ∧
      (nodeID = l.n2.id → l.otherNode nodeID = l.n1) ∧
      (l.otherNode (l.otherNode nodeID).id).id = nodeID ∧
      (nodeID = l.n1.id → l.otherNode (l.otherNode nodeID).id = l.n1) ∧
      (nodeID = l.n2.id → l.otherNode (l.otherNode nodeID).id = l.n2)) ∧
    ((l.n1.id ≠ nodeID ∧ l.n2.id ≠ nodeID) → l.otherNode nodeID = l.n1) := by
  refine ⟨fun hne hhas => ?_, fun h => ?_⟩
  · by_cases h1 : l.n1.id = nodeID
    · subst h1
      have h21 : ¬ l.n2.id = l.n1.id := fun h => hne h.symm
      simp [Link.otherNode, hne, h21]
    · have h2 : l.n2.id = nodeID := by
        simpa [Link.hasNode, h1] using hhas
      subst h2
      have h21 : ¬ l.n2.id = l.n1.id := fun h => hne h.symm
      simp [Link.otherNode, hne, h21]
  · simp [Link.otherNode, h.1]

/-- Witness for C10: the link `a — b` at `a`, and at the foreign id `z`. -/
theorem otherNode_swaps_witness :
    ((⟨⟨"a", "CURVE"⟩, ⟨"b", "SHEET"⟩, (⟨0, 0, 0, 0⟩, ⟨1, 1, 1, 1⟩)⟩ : Link).otherNode
        "a").id ≠ "a" ∧
    (⟨⟨"a", "CURVE"⟩, ⟨"b", "SHEET"⟩, (⟨0, 0, 0, 0⟩, ⟨1, 1, 1, 1⟩)⟩ : Link).otherNode "z" =
      ⟨"a", "CURVE"⟩ :=
  ⟨((otherNode_swaps ⟨⟨"a", "CURVE"⟩, ⟨"b", "SHEET"⟩, (⟨0, 0, 0, 0⟩, ⟨1, 1, 1, 1⟩)⟩ "a").1
      (by decide) (by decide)).1,
   (otherNode_swaps ⟨⟨"a", "CURVE"⟩, ⟨"b", "SHEET"⟩, (⟨0, 0, 0, 0⟩, ⟨1, 1, 1, 1⟩)⟩ "z").2
      ⟨by decide, by decide⟩⟩

end Structure

end TopoBlend

namespace TopoBlend

namespace Synthesizer

open Structure

/-! ## Vertex emission -/

theorem emitRow_spec {R : Type} (row : List (Vec3 R)) (st : SurfaceMeshModel R × List Vertex) :
    (row.foldl (fun st p => ((add_vertex st.1 p).1, st.2 ++ [(add_vertex st.1 p).2]))
        st).1.points = st.1.points ++ row ∧
    (row.foldl (fun st p => ((add_vertex st.1 p).1, st.2 ++ [(add_vertex st.1 p).2]))
        st).1.faces = st.1.faces ∧
    (row.foldl (fun st p => ((add_vertex st.1 p).1, st.2 ++ [(add_vertex st.1 p).2]))
        st).2.length = st.2.length + row.length := by
  induction row generalizing st with
  | nil => simp
  | cons p row ih =>
    rw [List.foldl_cons]
    obtain ⟨h1, h2, h3⟩ := ih ((add_vertex st.1 p).1, st.2 ++ [(add_vertex st.1 p).2])
    refine ⟨?_, ?_, ?_⟩
    · rw [h1]; simp [add_vertex]
    · rw [h2]; simp [add_vertex]
    · rw [h3]; simp [add_vertex]; omega

theorem emitVertices_cons {R : Type} (row : List (Vec3 R)) (grid : Array2D_Vector3 R)
    (mesh : SurfaceMeshModel R) (vertices_idx : List Vertex) :
    emitVertices (row :: grid) mesh vertices_idx =
      emitVertices grid
        (row.foldl (fun st p => ((add_vertex st.1 p).1, st.2 ++ [(add_vertex st.1 p).2]))
          (mesh, vertices_idx)).1
        (row.foldl (fun st p => ((add_vertex st.1 p).1, st.2 ++ [(add_vertex st.1 p).2]))
          (mesh, vertices_idx)).2 := rfl

theorem emitVertices_spec {R : Type} (grid : Array2D_Vector3 R) (mesh : SurfaceMeshModel R)
    (vertices_idx : List Vertex) :
    (emitVertices grid mesh vertices_idx).1.points = mesh.points ++ grid.flatten ∧
    (emitVertices grid mesh vertices_idx).1.faces = mesh.faces ∧
    (emitVertices grid mesh vertices_idx).2.length = vertices_idx.length + cellCount grid := by
  induction grid generalizing mesh vertices_idx with
  | nil => simp [emitVertices, cellCount]
  | cons row grid ih =>
    rw [emitVertices_cons]
    obtain ⟨h1, h2, h3⟩ := emitRow_spec row (mesh, vertices_idx)
    obtain ⟨k1, k2, k3⟩ := ih
      (row.foldl (fun st p => ((add_vertex st.1 p).1, st.2 ++ [(add_vertex st.1 p).2]))
        (mesh, vertices_idx)).1
      (row.foldl (fun st p => ((add_vertex st.1 p).1, st.2 ++ [(add_vertex st.1 p).2]))
        (mesh, vertices_idx)).2
    refine ⟨?_, ?_, ?_⟩
    · rw [k1, h1]; simp
    · rw [k2, h2]
    · rw [k3, h3]; simp [cellCount]; omega

theorem stitch_spec {R : Type} (rule : FaceRule) (grid : Array2D_Vector3 R)
    (mesh : SurfaceMeshModel R) (vertices_idx : List Vertex) (idxBase : Nat) :
    (stitch rule grid mesh vertices_idx idxBase).mesh.points = mesh.points ++ grid.flatten ∧
    (stitch rule grid mesh vertices_idx idxBase).mesh.faces =
      mesh.faces ++ rule grid.length (grid.headD []).length idxBase ∧
    (stitch rule grid mesh vertices_idx idxBase).ret = none := by
  obtain ⟨h1, h2, _⟩ := emitVertices_spec grid mesh vertices_idx
  refine ⟨?_, ?_, rfl⟩
  · simpa [stitch] using h1
  · simp [stitch, h2]

theorem cellCount_eq_length_flatten {R : Type} (grid : Array2D_Vector3 R) :
    cellCount grid = grid.flatten.length := by
  simp [cellCount, List.length_flatten]

theorem flatten_length_of_isGrid {R : Type} {T A : Nat} {grid : Array2D_Vector3 R}
    (hg : IsGrid T A grid) : grid.flatten.length = T * A := by
  obtain ⟨hT, hA⟩ := hg
  subst hT
  induction grid with
  | nil => simp
  | cons row grid ih =>
    have hrow : row.length = A := hA row (List.mem_cons_self _ _)
    have := ih (fun r hr => hA r (List.mem_cons_of_mem _ hr))
    simp [List.flatten_cons, List.length_append, hrow, this]
    ring

theorem flatten_getElem?_of_rows {R : Type} {A : Nat} (grid : Array2D_Vector3 R)
    (hA : ∀ row ∈ grid, row.length = A) (i j : Nat) (hj : j < A) :
    grid.flatten[i * A + j]? = cell grid i j := by
  induction grid generalizing i with
  | nil => simp [cell]
  | cons row grid ih =>
    have hrow : row.length = A := hA row (List.mem_cons_self _ _)
    cases i with
    | zero =>
      simp only [List.flatten_cons, Nat.zero_mul, Nat.zero_add, cell]
      rw [List.getElem?_append_left (by omega)]
      simp
    | succ i =>
      have e : (i + 1) * A + j = (i * A + j) + row.length := by rw [hrow]; ring
      simp only [List.flatten_cons, cell]
      rw [e, List.getElem?_append_right (by omega)]
      simp only [Nat.add_sub_cancel]
      rw [ih (fun r hr => hA r (List.mem_cons_of_mem _ hr)) i]
      simp [cell]

theorem cell_isSome_of_isGrid {R : Type} {T A : Nat} {grid : Array2D_Vector3 R}
    (hg : IsGrid T A grid) (i j : Nat) (hi : i < T) (hj : j < A) :
    ∃ p, cell grid i j = some p := by
  obtain ⟨hT, hA⟩ := hg
  have hi' : i < grid.length := by omega
  have hrow : (grid[i]).length = A := hA _ (List.getElem_mem _)
  refine ⟨(grid[i])[j], ?_⟩
  simp [cell, List.getElem?_eq_getElem hi', List.getElem?_eq_getElem (hrow ▸ hj)]

/-! ## Cylinder faces -/

theorem length_flatMap_of_const {α β : Type} (l : List α) (f : α → List β) (c : Nat)
    (h : ∀ a ∈ l, (f a).length = c) : (l.flatMap f).length = l.length * c := by
  induction l with
  | nil => simp
  | cons a l ih =>
    rw [List.flatMap_cons, List.length_append, h a (List.mem_cons_self _ _),
      ih (fun x hx => h x (List.mem_cons_of_mem _ hx)), List.length_cons]
    ring

theorem cylinderFaces_length (T A b : Nat) : (cylinderFaces T A b).length = 2 * (T - 1) * A := by
  unfold cylinderFaces
  rw [length_flatMap_of_const _ _ (A * 2)]
  · rw [List.length_range]; ring
  · intro i _
    rw [length_flatMap_of_const _ _ 2]
    · rw [List.length_range]
    · intro j _
      rfl

theorem mem_cylinderFaces (T A b : Nat) (f : Face) :
    f ∈ cylinderFaces T A b ↔ ∃ i j, i < T - 1 ∧ j < A ∧
      (f = ⟨b + i * A + j, b + i * A + (j + 1) % A, b + (i + 1) * A + (j + 1) % A⟩ ∨
        f = ⟨b + i * A + j, b + (i + 1) * A + (j + 1) % A, b + (i + 1) * A + j⟩) := by
  unfold cylinderFaces
  simp only [List.mem_flatMap, List.mem_range, quadFaces, List.mem_cons, List.mem_singleton,
    List.not_mem_nil, or_false]
  constructor
  · rintro ⟨i, hi, j, hj, h⟩
    exact ⟨i, j, hi, hj, h⟩
  · rintro ⟨i, j, hi, hj, h⟩
    exact ⟨i, hi, j, hj, h⟩

theorem grid_index_lt {T A i j : Nat} (hi : i < T) (hj : j < A) : i * A + j < T * A := by
  calc i * A + j < i * A + A := by omega
    _ = (i + 1) * A := by ring
    _ ≤ T * A := Nat.mul_le_mul_right A hi

theorem headD_length_of_isGrid {R : Type} {T A : Nat} {grid : Array2D_Vector3 R}
    (hg : IsGrid T A grid) (hT : 1 ≤ T) : (grid.headD []).length = A := by
  obtain ⟨hlen, hA⟩ := hg
  cases grid with
  | nil => simp at hlen; omega
  | cons row grid => simpa using hA row (List.mem_cons_self _ _)

/-- Every index of a cylinder face is the index `b + (i * A + j)` of a grid cell. -/
theorem cylinderFaces_index (T A b : Nat) (f : Face) (hf : f ∈ cylinderFaces T A b)
    (k : Nat) (hk : k ∈ [f.v0, f.v1, f.v2]) :
    ∃ i j, i < T ∧ j < A ∧ k = b + (i * A + j) := by
  obtain ⟨i, j, hi, hj, h⟩ := (mem_cylinderFaces T A b f).mp hf
  have hm : (j + 1) % A < A := Nat.mod_lt _ (by omega)
  rcases h with h | h <;> subst h <;>
    simp only [List.mem_cons, List.mem_singleton, List.not_mem_nil, or_false] at hk <;>
    rcases hk with hk | hk | hk <;> subst hk
  · exact ⟨i, j, by omega, hj, by omega⟩
  · exact ⟨i, (j + 1) % A, by omega, hm, by omega⟩
  · exact ⟨i + 1, (j + 1) % A, by omega, hm, by omega⟩
  · exact ⟨i, j, by omega, hj, by omega⟩
  · exact ⟨i + 1, (j + 1) % A, by omega, hm, by omega⟩
  · exact ⟨i + 1, j, by omega, hj, by omega⟩

/-- Claim C1: on a `T × A` grid with `T ≥ 2` and `A ≥ 3` and for every base index `b`,
`addCylinderFaces` appends the `T * A` grid cells to the vertices in row-major order and
appends to the faces exactly the two triangles of the quad `Grid[i][j]`,
`Grid[i][(j+1) mod A]`, `Grid[i+1][(j+1) mod A]`, `Grid[i+1][j]` for every `i < T - 1` and
`j < A` (vertex `Grid[i][j]` having index `b + i * A + j`): `2 * (T - 1) * A` triangles,
the quad at `j = A - 1` closing the ring on column `0`, and every face index is the index
`b + (i * A + j)` of a cell of the grid, which is where that cell was emitted when `b` is
the number of vertices the mesh had before. -/
theorem addCylinderFaces_quads {R : Type} (grid : Array2D_Vector3 R)
    (mesh : SurfaceMeshModel R) (vertices_idx : List Vertex) (b T A : Nat)
    (hT : 2 ≤ T) (hA : 3 ≤ A) (hg : IsGrid T A grid) :
    ∃ newFaces : List Face,
      (addCylinderFaces grid mesh vertices_idx b).mesh.faces = mesh.faces ++ newFaces ∧
      (addCylinderFaces grid mesh vertices_idx b).mesh.points = mesh.points ++ grid.flatten ∧
      grid.flatten.length = T * A ∧
      newFaces.length = 2 * (T - 1) * A ∧
      (∀ f, f ∈ newFaces ↔ ∃ i j, i < T - 1 ∧ j < A ∧
        (f = ⟨b + i * A + j, b + i * A + (j + 1) % A, b + (i + 1) * A + (j + 1) % A⟩ ∨
          f = ⟨b + i * A + j, b + (i + 1) * A + (j + 1) % A, b + (i + 1) * A + j⟩)) ∧
      (∀ i, i < T - 1 →
        (⟨b + i * A + (A - 1), b + i * A + 0, b + (i + 1) * A + 0⟩ : Face) ∈ newFaces ∧
        (⟨b + i * A + (A - 1), b + (i + 1) * A + 0, b + (i + 1) * A + (A - 1)⟩ : Face)
          ∈ newFaces) ∧
      (∀ f ∈ newFaces, ∀ k : Nat, k ∈ [f.v0, f.v1, f.v2] → ∃ i j, i < T ∧ j < A ∧
        k = b + (i * A + j) ∧ b ≤ k ∧ k < b + T * A ∧
        ∃ p, cell grid i j = some p ∧
          (mesh.points.length = b →
            (addCylinderFaces grid mesh vertices_idx b).mesh.points[k]? = some p)) := by
  obtain ⟨hp, hf, _⟩ := stitch_spec cylinderFaces grid mesh vertices_idx b
  have hhead : (grid.headD []).length = A := headD_length_of_isGrid hg (by omega)
  rw [hg.1, hhead] at hf
  refine ⟨cylinderFaces T A b, hf, hp, flatten_length_of_isGrid hg,
    cylinderFaces_length T A b, mem_cylinderFaces T A b, ?_, ?_⟩
  · intro i hi
    have hwrap : (A - 1 + 1) % A = 0 := by
      rw [Nat.sub_add_cancel (by omega), Nat.mod_self]
    constructor
    · exact (mem_cylinderFaces T A b _).mpr ⟨i, A - 1, hi, by omega, Or.inl (by rw [hwrap])⟩
    · exact (mem_cylinderFaces T A b _).mpr ⟨i, A - 1, hi, by omega, Or.inr (by rw [hwrap])⟩
  · intro f hfm k hk
    obtain ⟨i, j, hi, hj, hkij⟩ := cylinderFaces_index T A b f hfm k hk
    obtain ⟨p, hcell⟩ := cell_isSome_of_isGrid hg i j hi hj
    have hlt := grid_index_lt hi hj
    refine ⟨i, j, hi, hj, hkij, by omega, by omega, p, hcell, fun hb => ?_⟩
    show (addCylinderFaces grid mesh vertices_idx b).mesh.points[k]? = some p
    unfold addCylinderFaces
    rw [hp, List.getElem?_append_right (by omega), hkij, hb, Nat.add_sub_cancel_left,
      flatten_getElem?_of_rows grid hg.2 i j hj, hcell]

/-- Witness for C1: the `2 × 3` grid `sampleGridA` stitched into the empty mesh at base
index `0` gives the `6` triangles of the three quads of its single ring, the last quad
closing on column `0`. -/
theorem addCylinderFaces_quads_witness :
    2 ≤ 2 ∧ 3 ≤ 3 ∧ IsGrid 2 3 sampleGridA ∧
    (addCylinderFaces sampleGridA ⟨[], []⟩ [] 0).mesh.faces =
      [⟨0, 1, 4⟩, ⟨0, 4, 3⟩, ⟨1, 2, 5⟩, ⟨1, 5, 4⟩, ⟨2, 0, 3⟩, ⟨2, 3, 5⟩] ∧
    ∃ newFaces : List Face,
      (addCylinderFaces sampleGridA ⟨[], []⟩ [] 0).mesh.faces = [] ++ newFaces ∧
      newFaces.length = 2 * (2 - 1) * 3 :=
  ⟨by decide, by decide, ⟨rfl, by simp [sampleGridA]⟩, by rfl,
   match addCylinderFaces_quads sampleGridA ⟨[], []⟩ [] 0 2 3 (by decide) (by decide)
      ⟨rfl, by simp [sampleGridA]⟩ with
   | ⟨nf, h1, _, _, h4, _⟩ => ⟨nf, h1, h4⟩⟩

/-! ## The value returned by the stitching operations -/

theorem addPlaneFaces_fold_spec {R : Type} (planes : List (Array2D_Vector3 R))
    (st : StitchResult R × Nat) (h : st.1.ret = none) :
    (planes.foldl
      (fun (st : StitchResult R × Nat) grid =>
        (stitch planeFaces grid st.1.mesh st.1.vertices_idx st.2, st.2 + cellCount grid))
      st).1.ret = none ∧
    (planes.foldl
      (fun (st : StitchResult R × Nat) grid =>
        (stitch planeFaces grid st.1.mesh st.1.vertices_idx st.2, st.2 + cellCount grid))
      st).1.mesh.points = st.1.mesh.points ++ (planes.map List.flatten).flatten := by
  induction planes generalizing st with
  | nil => simp [h]
  | cons grid planes ih =>
    rw [List.foldl_cons]
    obtain ⟨h1, h2⟩ := ih
      (stitch planeFaces grid st.1.mesh st.1.vertices_idx st.2, st.2 + cellCount grid) rfl
    refine ⟨h1, ?_⟩
    rw [h2]
    simp [(stitch_spec planeFaces grid st.1.mesh st.1.vertices_idx st.2).1]

/-- Claim C4, as the code has it: the four stitching operations are declared `void` and
take `idxBase` by value, so a call returns no index; what a call does is append one vertex
per grid cell, in row-major order, to the vertices of the mesh, so the vertex count grows
by the number of cells (for `addPlaneFaces`, of all sub-grids together), which is the
amount by which the caller advances the base index. -/
theorem stitching_returns_nothing_and_emits_cells {R : Type} (capFaces cornerFaces : FaceRule)
    (grid : Array2D_Vector3 R) (planes : List (Array2D_Vector3 R))
    (mesh : SurfaceMeshModel R) (vertices_idx : List Vertex) (idxBase : Nat) :
    ((addCylinderFaces grid mesh vertices_idx idxBase).ret = none ∧
      (addCylinderFaces grid mesh vertices_idx idxBase).mesh.points =
        mesh.points ++ grid.flatten ∧
      (addCylinderFaces grid mesh vertices_idx idxBase).mesh.points.length =
        mesh.points.length + cellCount grid) ∧
    ((addEndFaces capFaces grid mesh vertices_idx idxBase).ret = none ∧
      (addEndFaces capFaces grid mesh vertices_idx idxBase).mesh.points =
        mesh.points ++ grid.flatten ∧
      (addEndFaces capFaces grid mesh vertices_idx idxBase).mesh.points.length =
        mesh.points.length + cellCount grid) ∧
    ((addCornerFaces cornerFaces grid mesh vertices_idx idxBase).ret = none ∧
      (addCornerFaces cornerFaces grid mesh vertices_idx idxBase).mesh.points =
        mesh.points ++ grid.flatten ∧
      (addCornerFaces cornerFaces grid mesh vertices_idx idxBase).mesh.points.length =
        mesh.points.length + cellCount grid) ∧
    ((addPlaneFaces planes mesh vertices_idx idxBase).ret = none ∧
      (addPlaneFaces planes mesh vertices_idx idxBase).mesh.points =
        mesh.points ++ (planes.map List.flatten).flatten ∧
      (addPlaneFaces planes mesh vertices_idx idxBase).mesh.points.length =
        mesh.points.length + (planes.map cellCount).sum) := by
  have key : ∀ rule : FaceRule,
      (stitch rule grid mesh vertices_idx idxBase).ret = none ∧
      (stitch rule grid mesh vertices_idx idxBase).mesh.points = mesh.points ++ grid.flatten ∧
      (stitch rule grid mesh vertices_idx idxBase).mesh.points.length =
        mesh.points.length + cellCount grid := by
    intro rule
    obtain ⟨h1, _, h3⟩ := stitch_spec rule grid mesh vertices_idx idxBase
    refine ⟨h3, h1, ?_⟩
    rw [h1, List.length_append, cellCount_eq_length_flatten]
  refine ⟨key cylinderFaces, key capFaces, key cornerFaces, ?_⟩
  obtain ⟨h1, h2⟩ := addPlaneFaces_fold_spec planes
    (({ mesh := mesh, vertices_idx := vertices_idx, ret := none } : StitchResult R), idxBase) rfl
  refine ⟨h1, h2, ?_⟩
  have h3 : (addPlaneFaces planes mesh vertices_idx idxBase).mesh.points =
      mesh.points ++ (planes.map List.flatten).flatten := h2
  rw [h3, List.length_append, List.length_flatten]
  congr 1
  simp only [List.map_map]
  congr 1
  apply List.map_congr_left
  intro g _
  simp [cellCount_eq_length_flatten]

/-- Claim C4 fails as stated: stitching the `2 × 3` grid `sampleGridA` into the empty mesh
at base index `0` emits `6` vertices, and none of the four operations returns the index
`0 + 6`: they return nothing. -/
theorem stitching_does_not_return_next_base :
    (addCylinderFaces sampleGridA ⟨[], []⟩ [] 0).mesh.points.length = 6 ∧
    (addCylinderFaces sampleGridA ⟨[], []⟩ [] 0).ret ≠ some (0 + 6) ∧
    (addEndFaces planeFaces sampleGridA ⟨[], []⟩ [] 0).ret ≠ some (0 + 6) ∧
    (addCornerFaces planeFaces sampleGridA ⟨[], []⟩ [] 0).ret ≠ some (0 + 6) ∧
    (addPlaneFaces [sampleGridA] ⟨[], []⟩ [] 0).ret ≠ some (0 + 6) := by
  refine ⟨by rfl, ?_, ?_, ?_, ?_⟩ <;> intro h <;> cases h

/-! ## Blending -/

theorem Vec3.add_x {R : Type} [CommRing R] (a b : Vec3 R) : (a + b).x = a.x + b.x := rfl

theorem Vec3.add_y {R : Type} [CommRing R] (a b : Vec3 R) : (a + b).y = a.y + b.y := rfl

theorem Vec3.add_z {R : Type} [CommRing R] (a b : Vec3 R) : (a + b).z = a.z + b.z := rfl

theorem Vec3.mul_x {R : Type} [CommRing R] (a : Vec3 R) (s : R) : (a * s).x = a.x * s := rfl

theorem Vec3.mul_y {R : Type} [CommRing R] (a : Vec3 R) (s : R) : (a * s).y = a.y * s := rfl

theorem Vec3.mul_z {R : Type} [CommRing R] (a : Vec3 R) (s : R) : (a * s).z = a.z * s := rfl

theorem Vec3.lerp_zero {R : Type} [CommRing R] (p q : Vec3 R) :
    p * (1 - (0 : R)) + q * (0 : R) = p := by
  apply Vec3.eq_of_components <;> simp [Vec3.add_x, Vec3.add_y, Vec3.add_z, Vec3.mul_x,
    Vec3.mul_y, Vec3.mul_z]

theorem Vec3.lerp_one {R : Type} [CommRing R] (p q : Vec3 R) :
    p * (1 - (1 : R)) + q * (1 : R) = q := by
  apply Vec3.eq_of_components <;> simp [Vec3.add_x, Vec3.add_y, Vec3.add_z, Vec3.mul_x,
    Vec3.mul_y, Vec3.mul_z]

theorem zipWith_eq_left {α : Type} (f : α → α → α) (hf : ∀ p q, f p q = p) (l₁ l₂ : List α)
    (h : l₁.length = l₂.length) : List.zipWith f l₁ l₂ = l₁ := by
  induction l₁ generalizing l₂ with
  | nil => simp
  | cons p l₁ ih =>
    cases l₂ with
    | nil => simp at h
    | cons q l₂ =>
      simp only [List.length_cons, Nat.add_right_cancel_iff] at h
      simp [hf, ih l₂ h]

theorem zipWith_eq_right {α : Type} (f : α → α → α) (hf : ∀ p q, f p q = q) (l₁ l₂ : List α)
    (h : l₁.length = l₂.length) : List.zipWith f l₁ l₂ = l₂ := by
  induction l₁ generalizing l₂ with
  | nil =>
    cases l₂ with
    | nil => simp
    | cons q l₂ => simp at h
  | cons p l₁ ih =>
    cases l₂ with
    | nil => simp at h
    | cons q l₂ =>
      simp only [List.length_cons, Nat.add_right_cancel_iff] at h
      simp [hf, ih l₂ h]

theorem interpolate_rows {R : Type} [CommRing R] {A : Nat} (a b : Array2D_Vector3 R) (t : R)
    (ha : ∀ r ∈ a, r.length = A) (hb : ∀ r ∈ b, r.length = A) :
    ∀ r ∈ interpolate a b t, r.length = A := by
  induction a generalizing b with
  | nil => simp [interpolate]
  | cons ra a ih =>
    cases b with
    | nil => simp [interpolate]
    | cons rb b =>
      intro r hr
      simp only [interpolate, List.zipWith_cons_cons, List.mem_cons] at hr
      rcases hr with hr | hr
      · subst hr
        simp [List.length_zipWith, ha ra (List.mem_cons_self _ _),
          hb rb (List.mem_cons_self _ _)]
      · exact ih b (fun r h => ha r (List.mem_cons_of_mem _ h))
          (fun r h => hb r (List.mem_cons_of_mem _ h)) r hr

theorem interpolate_isGrid {R : Type} [CommRing R] {T A : Nat} {a b : Array2D_Vector3 R}
    (t : R) (ha : IsGrid T A a) (hb : IsGrid T A b) : IsGrid T A (interpolate a b t) := by
  refine ⟨?_, interpolate_rows a b t ha.2 hb.2⟩
  simp [interpolate, List.length_zipWith, ha.1, hb.1]

theorem cell_interpolate {R : Type} [CommRing R] (a b : Array2D_Vector3 R) (t : R)
    (i j : Nat) (p q : Vec3 R) (hp : cell a i j = some p) (hq : cell b i j = some q) :
    cell (interpolate a b t) i j = some (p * (1 - t) + q * t) := by
  unfold cell at hp hq ⊢
  unfold interpolate
  rw [List.getElem?_zipWith]
  cases hai : a[i]? with
  | none => simp [hai] at hp
  | some ra =>
    cases hbi : b[i]? with
    | none => simp [hbi] at hq
    | some rb =>
      simp only [hai, hbi, Option.some_bind] at hp hq ⊢
      rw [List.getElem?_zipWith, hp, hq]

theorem interpolate_zero {R : Type} [CommRing R] {A : Nat} (a b : Array2D_Vector3 R)
    (hlen : a.length = b.length)
    (ha : ∀ r ∈ a, r.length = A) (hb : ∀ r ∈ b, r.length = A) :
    interpolate a b 0 = a := by
  induction a generalizing b with
  | nil => simp [interpolate]
  | cons ra a ih =>
    cases b with
    | nil => simp at hlen
    | cons rb b =>
      simp only [List.length_cons, Nat.add_right_cancel_iff] at hlen
      have hrow : List.zipWith (fun (p q : Vec3 R) => p * (1 - (0 : R)) + q * (0 : R)) ra rb = ra :=
        zipWith_eq_left _ Vec3.lerp_zero ra rb
          ((ha ra (List.mem_cons_self _ _)).trans (hb rb (List.mem_cons_self _ _)).symm)
      have hrest := ih b hlen (fun r h => ha r (List.mem_cons_of_mem _ h))
        (fun r h => hb r (List.mem_cons_of_mem _ h))
      simp only [interpolate] at hrest ⊢
      rw [List.zipWith_cons_cons, hrow, hrest]

theorem interpolate_one {R : Type} [CommRing R] {A : Nat} (a b : Array2D_Vector3 R)
    (hlen : a.length = b.length)
    (ha : ∀ r ∈ a, r.length = A) (hb : ∀ r ∈ b, r.length = A) :
    interpolate a b 1 = b := by
  induction a generalizing b with
  | nil =>
    cases b with
    | nil => simp [interpolate]
    | cons rb b => simp at hlen
  | cons ra a ih =>
    cases b with
    | nil => simp at hlen
    | cons rb b =>
      simp only [List.length_cons, Nat.add_right_cancel_iff] at hlen
      have hrow : List.zipWith (fun (p q : Vec3 R) => p * (1 - (1 : R)) + q * (1 : R)) ra rb = rb :=
        zipWith_eq_right _ Vec3.lerp_one ra rb
          ((ha ra (List.mem_cons_self _ _)).trans (hb rb (List.mem_cons_self _ _)).symm)
      have hrest := ih b hlen (fun r h => ha r (List.mem_cons_of_mem _ h))
        (fun r h => hb r (List.mem_cons_of_mem _ h))
      simp only [interpolate] at hrest ⊢
      rw [List.zipWith_cons_cons, hrow, hrest]

theorem blend_ok {R : Type} [CommRing R]
    (resample : Node → Except BlendError (Array2D_Vector3 R)) (rule : String → FaceRule)
    (n1 n2 : Node) (t : R) (a b : Array2D_Vector3 R)
    (hkind : n1.type = n2.type) (ha : resample n1 = Except.ok a)
    (hb : resample n2 = Except.ok b) :
    blend resample rule n1 n2 t =
      Except.ok (stitch (rule n1.type) (interpolate a b t) ⟨[], []⟩ [] 0).mesh := by
  simp [blend, hkind, ha, hb]

/-- Claim C2: for two nodes of the same kind whose resampled grids `a` and `b` are both
`T × A`, and every `t` (in particular every `t` in `[0, 1]`), `blend` succeeds, the mesh
has `T * A` vertices, the vertex of cell `(i, j)` (at index `i * A + j`) is
`(1 - t) * a[i][j] + t * b[i][j]` in each component, at `t = 0` the vertices are exactly
the cells of `a` and at `t = 1` exactly the cells of `b`. -/
theorem blend_interpolates {R : Type} [CommRing R]
    (resample : Node → Except BlendError (Array2D_Vector3 R)) (rule : String → FaceRule)
    (n1 n2 : Node) (t : R) (a b : Array2D_Vector3 R) (T A : Nat)
    (hkind : n1.type = n2.type) (ha : resample n1 = Except.ok a)
    (hb : resample n2 = Except.ok b) (hga : IsGrid T A a) (hgb : IsGrid T A b) :
    ∃ m, blend resample rule n1 n2 t = Except.ok m ∧
      m.points.length = T * A ∧
      (∀ i j, i < T → j < A → ∃ p q u, cell a i j = some p ∧ cell b i j = some q ∧
        m.points[i * A + j]? = some u ∧
        u.x = (1 - t) * p.x + t * q.x ∧
        u.y = (1 - t) * p.y + t * q.y ∧
        u.z = (1 - t) * p.z + t * q.z) ∧
      (t = 0 → m.points = a.flatten) ∧
      (t = 1 → m.points = b.flatten) := by
  have hpts := (stitch_spec (rule n1.type) (interpolate a b t) ⟨[], []⟩ [] 0).1
  simp only [List.nil_append] at hpts
  have hgi := interpolate_isGrid t hga hgb
  refine ⟨_, blend_ok resample rule n1 n2 t a b hkind ha hb, ?_, ?_, ?_, ?_⟩
  · rw [hpts, flatten_length_of_isGrid hgi]
  · intro i j hi hj
    obtain ⟨p, hp⟩ := cell_isSome_of_isGrid hga i j hi hj
    obtain ⟨q, hq⟩ := cell_isSome_of_isGrid hgb i j hi hj
    refine ⟨p, q, p * (1 - t) + q * t, hp, hq, ?_, ?_, ?_, ?_⟩
    · rw [hpts, flatten_getElem?_of_rows _ hgi.2 i j hj, cell_interpolate a b t i j p q hp hq]
    · rw [Vec3.add_x, Vec3.mul_x, Vec3.mul_x]; ring
    · rw [Vec3.add_y, Vec3.mul_y, Vec3.mul_y]; ring
    · rw [Vec3.add_z, Vec3.mul_z, Vec3.mul_z]; ring
  · intro h0
    subst h0
    rw [hpts, interpolate_zero a b (hga.1.trans hgb.1.symm) hga.2 hgb.2]
  · intro h1
    subst h1
    rw [hpts, interpolate_one a b (hga.1.trans hgb.1.symm) hga.2 hgb.2]

/-- Witness for C2: the curves `a` and `b`, resampled to `sampleGridA` and `sampleGridB`,
blended at `t = 1/2`. -/
theorem blend_interpolates_witness :
    (⟨"a", "CURVE"⟩ : Node).type = (⟨"b", "CURVE"⟩ : Node).type ∧
    sampleResample ⟨"a", "CURVE"⟩ = Except.ok sampleGridA ∧
    sampleResample ⟨"b", "CURVE"⟩ = Except.ok sampleGridB ∧
    IsGrid 2 3 sampleGridA ∧ IsGrid 2 3 sampleGridB ∧
    ∃ m, blend sampleResample (fun _ => cylinderFaces) ⟨"a", "CURVE"⟩ ⟨"b", "CURVE"⟩
        (1 / 2 : ℚ) = Except.ok m ∧ m.points.length = 2 * 3 :=
  ⟨rfl, rfl, rfl, ⟨rfl, by simp [sampleGridA]⟩, ⟨rfl, by simp [sampleGridB]⟩,
   match blend_interpolates sampleResample (fun _ => cylinderFaces) ⟨"a", "CURVE"⟩
      ⟨"b", "CURVE"⟩ (1 / 2 : ℚ) sampleGridA sampleGridB 2 3 rfl rfl rfl
      ⟨rfl, by simp [sampleGridA]⟩ ⟨rfl, by simp [sampleGridB]⟩ with
   | ⟨m, h1, h2, _⟩ => ⟨m, h1, h2⟩⟩

/-- Claim C3: for two nodes whose kinds differ (`n1->type() != n2->type()`) and every `t`,
`blend` reports the failure `IncompatiblePrimitiveKinds` and produces no mesh. -/
theorem blend_incompatible_kinds {R : Type} [CommRing R]
    (resample : Node → Except BlendError (Array2D_Vector3 R)) (rule : String → FaceRule)
    (n1 n2 : Node) (t : R) (hkind : n1.type ≠ n2.type) :
    blend resample rule n1 n2 t = Except.error BlendError.IncompatiblePrimitiveKinds ∧
    ∀ m, blend resample rule n1 n2 t ≠ Except.ok m := by
  have h : blend resample rule n1 n2 t =
      Except.error BlendError.IncompatiblePrimitiveKinds := by
    simp [blend, hkind]
  refine ⟨h, fun m hm => ?_⟩
  rw [h] at hm
  cases hm

/-- Witness for C3: a curve blended with a sheet. -/
theorem blend_incompatible_kinds_witness :
    (⟨"a", "CURVE"⟩ : Node).type ≠ (⟨"b", "SHEET"⟩ : Node).type ∧
    blend sampleResample (fun _ => cylinderFaces) ⟨"a", "CURVE"⟩ ⟨"b", "SHEET"⟩ (1 / 2 : ℚ) =
      Except.error BlendError.IncompatiblePrimitiveKinds :=
  ⟨by decide,
   (blend_incompatible_kinds sampleResample (fun _ => cylinderFaces) ⟨"a", "CURVE"⟩
      ⟨"b", "SHEET"⟩ (1 / 2 : ℚ) (by decide)).1⟩

end Synthesizer

end TopoBlend
